import Mathlib

/-!
Shallow embedding of the sandboxed-execution subsystem of the `mcp-server`
repository, together with theorems checking the natural-language
specification against it.

Embedded source files:
* `src/mcp_server/tools/python.py` — the in-process subprocess sandbox
  (`ALLOWED_ENV_VARS`, `ResourceLimits`, `SandboxedPython`).
* `src/server/mcp_server/tools/sandbox.py` — the remote persistent-shell
  sandbox over TCP (`CommandResult`, `ShellConnection`).
* `src/server/mcp_server/tools/shell.py` — the earlier Unix-socket variant
  of `ShellConnection`.

Python strings/bytes are modelled as Lean `String`s, and all computations on
them go through the underlying character list (`String.data`), so that every
definition evaluates by kernel reduction.  Effects (the process table, the
filesystem, the byte stream, `asyncio` waits) are modelled by explicit state
passing; nondeterministic outcomes (does the child exit in time? does the
wait expire?) are passed in as parameters.
-/

namespace McpSandbox

/-! ### Small string helpers (semantics of the Python primitives used) -/

/-- Python `s.startswith(pre)` on str/bytes: prefix test on the character
list. -/
def pyStartswith (s pre : String) : Bool :=
  pre.data.isPrefixOf s.data

/-- The characters Python `str.strip()` removes by default: exactly the
code points on which `str.isspace()` holds (CPython 3.11,
`0x9`–`0xD`, `0x1C`–`0x1F`, space, NEL, NBSP, and the Unicode space
separators). -/
def pyWhitespace (c : Char) : Bool :=
  let n := c.toNat
  (9 ≤ n && n ≤ 13) || (28 ≤ n && n ≤ 31) || n == 32 || n == 133 ||
    n == 160 || n == 5760 || (8192 ≤ n && n ≤ 8202) || n == 8232 ||
    n == 8233 || n == 8239 || n == 8287 || n == 12288

/-- Python `s.strip()`: drop leading and trailing whitespace. -/
def pyStrip (s : String) : String :=
  ⟨((s.data.dropWhile pyWhitespace).reverse.dropWhile pyWhitespace).reverse⟩

/-- Code points of the zero digit of every run of Unicode decimal digits
(category `Nd`), generated from CPython 3.11's `unicodedata`: each run is
ten consecutive code points whose decimal values are `0`–`9` in order.
These are exactly the characters `int()` accepts as digits. -/
def ND_ZEROS : List Nat :=
  [48, 1632, 1776, 1984, 2406, 2534, 2662, 2790, 2918, 3046, 3174, 3302,
   3430, 3558, 3664, 3792, 3872, 4160, 4240, 6112, 6160, 6470, 6608, 6784,
   6800, 6992, 7088, 7232, 7248, 42528, 43216, 43264, 43472, 43504, 43600,
   44016, 65296, 66720, 68912, 69734, 69872, 69942, 70096, 70384, 70736,
   70864, 71248, 71360, 71472, 71904, 72016, 72784, 73040, 73120, 92768,
   92864, 93008, 120782, 120792, 120802, 120812, 120822, 123200, 123632,
   125264, 130032]

/-- The Unicode decimal value of a character (e.g. `some 3` for `'3'` and
for Arabic-Indic `'٣'`), `none` when the character is not a decimal digit
of any script. -/
def pyUnicodeDecimal (c : Char) : Option Nat :=
  match ND_ZEROS.find? fun z => z ≤ c.toNat && c.toNat ≤ z + 9 with
  | some z => some (c.toNat - z)
  | none => none

/-- The digit test guarding the exit-code conversion `int(exit_code_str)
if exit_code_str.isdigit() else 1`, as it determines the reported exit
code: the conversion yields `int`'s value exactly when the string is
non-empty and every character is a Unicode decimal digit.  Python's
`isdigit` also accepts the digit-typed non-decimal characters (such as
`"²"`); on those `int()` raises `ValueError`, which `run_command`'s
blanket `except Exception` converts to exit code 1 — the same fallback as
the `else` branch — so for the reported exit code the guard behaves
extensionally as this all-decimal test, which is the form embedded
here. -/
def pyIsDigit (s : String) : Bool :=
  !s.data.isEmpty && s.data.all fun c => (pyUnicodeDecimal c).isSome

/-- Value of a string of decimal digits, as `int(s)` computes it: each
character contributes its Unicode decimal value (so `int("٣") = 3`).
Meaningful on strings accepted by `pyIsDigit`. -/
def digitsToNat (s : String) : Nat :=
  s.data.foldl (fun n c => 10 * n + (pyUnicodeDecimal c).getD 0) 0

/-- Python `"".join(buffer)`: concatenation of a list of strings. -/
def pyJoin : List String → String
  | [] => ""
  | l :: ls => l ++ pyJoin ls

/-- Python `sep.join(sections)`: the separator goes between elements. -/
def joinSep (sep : String) : List String → String
  | [] => ""
  | [x] => x
  | x :: xs => x ++ sep ++ joinSep sep xs

/-! ### `python.py`: the in-process subprocess sandbox -/

/-- An environment, as the association list of `os.environ` (keys unique). -/
abbrev Env := List (String × String)

/-- Constant `ALLOWED_ENV_VARS` from `python.py`: environment variables allowed to
reach sandboxed code. -/
def ALLOWED_ENV_VARS : List String :=
  ["LANG", "OPENBLAS_NUM_THREADS", "PYTHON_VERSION", "PYTHONPATH",
   "SANDBOX_PYTHON", "SANDBOX_RUFF", "TZ", "USER_AGENT"]

/-- The environment-handling steps of `SandboxedPython.setup_sandbox`:
build `original_env` as the allow-listed sub-dict of `os.environ`, then
`os_environ.clear()`, then `os_environ.update(original_env)`. -/
def setup_sandbox_env (parent : Env) : Env :=
  let original_env := parent.filter fun kv => decide (kv.1 ∈ ALLOWED_ENV_VARS)
  let cleared : Env := []
  cleared ++ original_env

/-- The resource kinds named in `ResourceLimits.LIMITS`. -/
inductive Rlimit
  | AS | CPU | NPROC | FSIZE | CORE
deriving DecidableEq, Repr

/-- Constant `ResourceLimits.MEMORY` (2 GB). -/
def MEMORY : Nat := 2 * 1024 * 1024 * 1024

/-- Constant `ResourceLimits.CPU_TIME` (seconds). -/
def CPU_TIME : Nat := 600

/-- Constant `ResourceLimits.PROCESS_COUNT`. -/
def PROCESS_COUNT : Nat := 50

/-- Constant `ResourceLimits.FILE_SIZE` (50 MB). -/
def FILE_SIZE : Nat := 50 * 1024 * 1024

/-- Mapping `ResourceLimits.LIMITS`, in the dict's insertion order (Python dicts
iterate in insertion order). -/
def LIMITS : List (Rlimit × Nat) :=
  [(.AS, MEMORY), (.CPU, CPU_TIME), (.NPROC, PROCESS_COUNT),
   (.FSIZE, FILE_SIZE), (.CORE, 0)]

/-- Observable actions performed inside the child process image between
`fork` and `exec` (the `preexec_fn` hook) and the load of the untrusted
program itself. -/
inductive ChildEvent
  | setrlimit (r : Rlimit) (soft hard : Nat)
  | clearEnv
  | restoreEnv (env : Env)
  | execProgram
deriving DecidableEq, Repr

/-- Trace of `SandboxedPython.setup_sandbox`: one `resource.setrlimit(res,
(limit, limit))` per entry of `LIMITS`, in iteration order, then the
environment clear and the allow-listed repopulation. -/
def setup_sandbox (parent : Env) : List ChildEvent :=
  (LIMITS.map fun rl => ChildEvent.setrlimit rl.1 rl.2 rl.2)
    ++ [ChildEvent.clearEnv, ChildEvent.restoreEnv (setup_sandbox_env parent)]

/-- Trace of the child process image built by `SandboxedPython.execute`:
`create_subprocess_exec(..., preexec_fn=self.setup_sandbox, ...)` runs the
hook in the child after `fork` and before the new program is loaded, so the
trace is the hook's trace followed by the `exec` of the (untrusted)
program. -/
def spawnChildTrace (parent : Env) : List ChildEvent :=
  setup_sandbox parent ++ [ChildEvent.execProgram]

/-- Outcome of the spawned child process, as the sandbox can observe it:
either it exits (within the enforced limit when there is one) with full
outputs and a return code, or it is still running when the limit elapses,
in which case only the partial outputs drained after the kill exist. -/
inductive ProcRun
  | completes (out err : String) (returncode : Int)
  | runsPast (partialOut partialErr : String)
deriving DecidableEq, Repr

/-- What `SandboxedPython.execute` returns, together with the lifecycle
facts the embedding records: whether `proc.kill()` was issued, and whether
the child is still running when `execute` returns (`proc.communicate()`
only returns once the child has been reaped). -/
structure ExecOutcome where
  stdout : String
  stderr : String
  errmsg : String
  killed : Bool
  runningAfter : Bool
deriving DecidableEq, Repr

/-- Python truthiness of `self.time_limit: int | None` in
`if self.time_limit:`. -/
def timeLimitActive : Option Nat → Bool
  | none => false
  | some t => t != 0

/-- Method `SandboxedPython.execute`, after the subprocess has been spawned
successfully.  With an active time limit the `asyncio.timeout` block either
completes `proc.communicate()` or raises `TimeoutError`, upon which the
code kills the child, drains the remaining output with a second
`communicate()`, and sets the timeout message.  Without an active limit a
non-terminating child makes `communicate()` wait forever, which the
embedding renders as `none`. -/
def execute (time_limit : Option Nat) (run : ProcRun) : Option ExecOutcome :=
  if timeLimitActive time_limit then
    match run with
    | .completes out err rc =>
        some { stdout := out, stderr := err
               errmsg := if rc != 0 then "Process exited with code " ++ toString rc else ""
               killed := false, runningAfter := false }
    | .runsPast pOut pErr =>
        some { stdout := pOut, stderr := pErr
               errmsg := "Execution terminated after "
                 ++ toString (time_limit.getD 0) ++ " seconds"
               killed := true, runningAfter := false }
  else
    match run with
    | .completes out err rc =>
        some { stdout := out, stderr := err
               errmsg := if rc != 0 then "Process exited with code " ++ toString rc else ""
               killed := false, runningAfter := false }
    | .runsPast _ _ => none

/-! ### `python.py`: temp-directory lifecycle

The filesystem is modelled as the list of existing paths.  `mkdtemp` (inside
`TemporaryDirectory()`) creates a directory whose name is fresh — not the
name of any existing path — which the caller supplies here together with
that freshness fact. -/

/-- Python `shutil.rmtree(dir)`: remove the directory and everything under it. -/
def rmtree (fs : List String) (dir : String) : List String :=
  fs.filter fun p => !(p == dir || pyStartswith p (dir ++ "/"))

/-- Method `SandboxedPython.__post_init__`: `TemporaryDirectory()` creates a fresh
directory `name`; the `TemporaryDirectory` object is not stored, so CPython
finalizes it at once, removing the directory again; then
`self._script_path.parent.mkdir(parents=True)` recreates `name` and creates
`name + "/run"`, and `write_text` creates the script file inside it. -/
def post_init (fs : List String) (name : String) : List String :=
  let fs1 := name :: fs
  let fs2 := rmtree fs1 name
  (name ++ "/run/usercode.py") :: (name ++ "/run") :: name :: fs2

/-- Method `SandboxedPython.__del__`: `if self._temp_dir.exists():
shutil_rmtree(self._temp_dir)`. -/
def sandboxDel (fs : List String) (name : String) : List String :=
  if name ∈ fs then rmtree fs name else fs

/-! ### `python.py`: `SandboxedPython.format_output` -/

/-- An element of the Python set `{stdout, stderr, errmsg}`: `stdout` and
`stderr` are `bytes`, `errmsg` is `str`, and a `bytes` value never equals a
`str` value, so only `stdout = stderr` can collapse. -/
inductive OutSection
  | bytesSec (content : String)
  | strSec (content : String)
deriving DecidableEq, Repr

/-- Python `section.decode(errors="replace")` when the element is bytes (identity
in this model), the string itself otherwise. -/
def sectionText : OutSection → String
  | .bytesSec b => b
  | .strSec m => m

/-- Method `SandboxedPython.format_output`.  The iteration `for section in
{stdout, stderr, errmsg}` visits the distinct elements of the set in an
unspecified order; this embedding fixes one order.  The properties proved
about it (which contents appear in the result) do not depend on the order.
Each non-empty stripped section is rendered as
`f"{section}:\n` ``` `\n{section}\n` ``` `"` and the sections are joined
with blank lines. -/
def format_output (stdout stderr errmsg : String) : String :=
  let elems : List OutSection :=
    (if stdout = stderr then [.bytesSec stdout]
     else [.bytesSec stdout, .bytesSec stderr]) ++ [.strSec errmsg]
  let sections := elems.filterMap fun sec =>
    let s := pyStrip (sectionText sec)
    if s = "" then none else some (s ++ ":\n```\n" ++ s ++ "\n```")
  joinSep "\n\n" sections

/-! ### `sandbox.py`: the remote persistent-shell sandbox over TCP

The byte stream is modelled as the list of lines `reader.readline()` will
deliver; an exhausted list means end-of-file (where `readline` returns
`b""`).  A line of the stream is never the empty string except to model an
explicit in-stream EOF marker. -/

/-- Constant `PROMPT_MARKER` from `sandbox.py`. -/
def PROMPT_MARKER : String := "$ "

/-- Constant `DEFAULT_TIMEOUT` from `sandbox.py`. -/
def DEFAULT_TIMEOUT : Nat := 5

/-- Dataclass `CommandResult` from `sandbox.py`, with its field defaults. -/
structure CommandResult where
  stdout : String := ""
  stderr : String := ""
  exit_code : Int := 0
deriving DecidableEq, Repr

/-- Property `CommandResult.formatted_output`: the exit-code line, then the stripped
stdout and stderr sections when non-empty, joined by blank lines. -/
def CommandResult.formatted_output (r : CommandResult) : String :=
  joinSep "\n\n"
    (["Exit code: " ++ toString r.exit_code]
      ++ (if pyStrip r.stdout = "" then []
          else ["Output:\n```\n" ++ pyStrip r.stdout ++ "\n```"])
      ++ (if pyStrip r.stderr = "" then []
          else ["Error:\n```\n" ++ pyStrip r.stderr ++ "\n```"]))

/-- Method `ShellConnection._read_until_prompt`: read lines until `readline`
returns `b""` (EOF) or a line starting with the prompt marker arrives;
return the concatenation of the decoded lines read before that, together
with the part of the stream not yet consumed. -/
def read_until_prompt : List String → String × List String
  | [] => ("", [])
  | line :: rest =>
    if line = "" then ("", rest)
    else if pyStartswith line PROMPT_MARKER then ("", rest)
    else
      let r := read_until_prompt rest
      (line ++ r.1, r.2)

/-- Outcome of one `asyncio.wait_for(self._read_until_prompt(), ...)`:
either the read finishes within the wait, or the wait expires and the read
coroutine is cancelled — `buffered` is the partial content its local
buffer held at that moment, which the cancellation discards. -/
inductive WaitOutcome
  | completes
  | expires (buffered : String)
deriving DecidableEq, Repr

/-- Method `ShellConnection.run_command` from `sandbox.py`.  Returns the
`CommandResult` and the list of writes made to the stream (each write of
`_write_command` is the command followed by one newline).  On the success
path a second command `echo $?` is issued and its stripped response parsed:
`int(s)` if `s.isdigit()` else `1`.  Either expired wait raises
`TimeoutError`, caught as `CommandResult(stderr="Command timed out",
exit_code=1)` whose `stdout` is the field default `""`. -/
def run_command (command : String) (stream : List String)
    (primaryWait echoWait : WaitOutcome) : CommandResult × List String :=
  match primaryWait with
  | .expires _ =>
      ({ stdout := "", stderr := "Command timed out", exit_code := 1 },
       [command ++ "\n"])
  | .completes =>
    let r1 := read_until_prompt stream
    match echoWait with
    | .expires _ =>
        ({ stdout := "", stderr := "Command timed out", exit_code := 1 },
         [command ++ "\n", "echo $?\n"])
    | .completes =>
      let r2 := read_until_prompt r1.2
      let ecs := pyStrip r2.1
      let ec : Int := if pyIsDigit ecs then (digitsToNat ecs : Int) else 1
      ({ stdout := r1.1, stderr := "", exit_code := ec },
       [command ++ "\n", "echo $?\n"])

/-! ### `ShellConnection.connect`: both variants -/

/-- Code `INTERNAL_ERROR` from `mcp.types` (JSON-RPC internal-error code). -/
def INTERNAL_ERROR : Int := -32603

/-- What a failed `connect()` surfaces to its caller: either the
tool-layer's structured error type (`McpError` carrying `ErrorData`), or a
raw Python exception that propagates unconverted. -/
inductive ConnectError
  | mcpError (code : Int) (message : String)
  | keyError (key : String)
  | osError (message : String)
deriving DecidableEq, Repr

/-- Is the surfaced failure the tool-layer's structured error type? -/
def ConnectError.isStructured : ConnectError → Bool
  | .mcpError _ _ => true
  | _ => false

/-- Outcome of the attempt to open the underlying connection. -/
inductive NetAttempt
  | opens
  | fails (errText : String)
deriving DecidableEq, Repr

/-- Python `sandbox.split(":", 1)` followed by 2-element unpacking: split at
the first colon, or fail (`ValueError`) when there is none. -/
def splitFirstColon : List Char → Option (List Char × List Char)
  | [] => none
  | c :: cs =>
    if c = ':' then some ([], cs)
    else
      match splitFirstColon cs with
      | none => none
      | some (a, b) => some (c :: a, b)

/-- Python `int(port_str)`: optional surrounding whitespace and sign, then
at least one digit; `none` models the `ValueError`. -/
def pyIntParse (s : String) : Option Int :=
  let t := pyStrip s
  match t.data with
  | '-' :: ds =>
      if !ds.isEmpty && ds.all fun c => (pyUnicodeDecimal c).isSome then some (-(digitsToNat ⟨ds⟩ : Int)) else none
  | '+' :: ds =>
      if !ds.isEmpty && ds.all fun c => (pyUnicodeDecimal c).isSome then some (digitsToNat ⟨ds⟩ : Int) else none
  | ds =>
      if !ds.isEmpty && ds.all fun c => (pyUnicodeDecimal c).isSome then some (digitsToNat ⟨ds⟩ : Int) else none

/-- Method `ShellConnection.connect` from `sandbox.py` (TCP variant).  A missing
`SANDBOX` environment variable raises a structured `McpError` at once; a
malformed value (`ValueError` from the split or from `int`) or a failing
`open_connection` (`OSError`) is caught and re-raised as a structured
`McpError` whose message carries the underlying error text. -/
def connect_tcp (sandboxEnv : Option String) (net : NetAttempt) :
    Except ConnectError Unit :=
  match sandboxEnv with
  | none =>
      .error (.mcpError INTERNAL_ERROR "SANDBOX environment variable is not set")
  | some sandbox =>
    match splitFirstColon sandbox.data with
    | none =>
        .error (.mcpError INTERNAL_ERROR
          ("Failed to connect to sandbox: "
            ++ "not enough values to unpack (expected 2, got 1)"))
    | some (_, portChars) =>
      match pyIntParse ⟨portChars⟩ with
      | none =>
          .error (.mcpError INTERNAL_ERROR
            ("Failed to connect to sandbox: "
              ++ "invalid literal for int() with base 10: '"
              ++ String.mk portChars ++ "'"))
      | some _ =>
        match net with
        | .fails msg =>
            .error (.mcpError INTERNAL_ERROR ("Failed to connect to sandbox: " ++ msg))
        | .opens => .ok ()

/-- Method `ShellConnection.connect` from `shell.py` (Unix-socket variant):
`os.environ["SANDBOX_SOCKET"]` raises a raw `KeyError` when the variable is
absent, and an `OSError` from `open_unix_connection` propagates
unconverted — nothing in this variant catches either. -/
def connect_unix (socketEnv : Option String) (net : NetAttempt) :
    Except ConnectError Unit :=
  match socketEnv with
  | none => .error (.keyError "SANDBOX_SOCKET")
  | some _ =>
    match net with
    | .fails msg => .error (.osError msg)
    | .opens => .ok ()

/-! ## Claims -/

/-- C1: for every parent environment, after `SandboxedPython.setup_sandbox`
runs, the environment the sandboxed child sees (the one repopulated after
`os_environ.clear()`) contains exactly the parent entries whose names are in
`ALLOWED_ENV_VARS` — values copied from the parent — and a parent variable
whose name is not allow-listed never appears in it. -/
theorem c1_child_env_allowlisted (parent : Env) (e : Env)
    (hmem : ChildEvent.restoreEnv e ∈ setup_sandbox parent) :
    (∀ k v : String, ((k, v) ∈ e ↔ ((k, v) ∈ parent ∧ k ∈ ALLOWED_ENV_VARS))) ∧
    (∀ k v : String, k ∉ ALLOWED_ENV_VARS → (k, v) ∉ e) := by
  have he : e = setup_sandbox_env parent := by
    simp [setup_sandbox, LIMITS] at hmem
    exact hmem
  subst he
  refine ⟨fun k v => ?_, fun k v hk hin => ?_⟩
  · simp [setup_sandbox_env, List.mem_filter]
  · rw [setup_sandbox_env] at hin
    simp [List.mem_filter] at hin
    exact hk hin.2

/-- Witness for C1: a deliberately-set secret in the parent environment is
absent from the child environment, while an allow-listed variable is kept
with its value. -/
theorem c1_witness :
    ("LANG", "en_GB")
        ∈ setup_sandbox_env [("AWS_SECRET_KEY", "hunter2"), ("LANG", "en_GB")] ∧
    ("AWS_SECRET_KEY", "hunter2")
        ∉ setup_sandbox_env [("AWS_SECRET_KEY", "hunter2"), ("LANG", "en_GB")] := by
  have h := c1_child_env_allowlisted
    [("AWS_SECRET_KEY", "hunter2"), ("LANG", "en_GB")]
    (setup_sandbox_env [("AWS_SECRET_KEY", "hunter2"), ("LANG", "en_GB")])
    (by simp [setup_sandbox])
  exact ⟨(h.1 "LANG" "en_GB").mpr (by constructor <;> decide),
         h.2 "AWS_SECRET_KEY" "hunter2" (by decide)⟩

/-- C2: the pre-exec hook of the child process image sets the resource
ceilings in the order address-space, CPU-time, process count, file size,
core-dump-size-zero, and every one of these happens inside
`setup_sandbox` — which contains no `exec` — strictly before the untrusted
program is loaded (the final event of the child trace). -/
theorem c2_limits_ordered_before_exec (parent : Env) :
    spawnChildTrace parent =
      [ChildEvent.setrlimit .AS MEMORY MEMORY,
       ChildEvent.setrlimit .CPU CPU_TIME CPU_TIME,
       ChildEvent.setrlimit .NPROC PROCESS_COUNT PROCESS_COUNT,
       ChildEvent.setrlimit .FSIZE FILE_SIZE FILE_SIZE,
       ChildEvent.setrlimit .CORE 0 0,
       ChildEvent.clearEnv,
       ChildEvent.restoreEnv (setup_sandbox_env parent),
       ChildEvent.execProgram] ∧
    ChildEvent.execProgram ∉ setup_sandbox parent ∧
    spawnChildTrace parent = setup_sandbox parent ++ [ChildEvent.execProgram] := by
  refine ⟨rfl, ?_, rfl⟩
  simp [setup_sandbox, LIMITS]

/-- C3: when the child does not exit within an enforced time limit `T`,
`SandboxedPython.execute` kills it, drains the partial output, and returns
it together with the timeout message `"Execution terminated after T
seconds"`; the child is no longer running on return, and the message is
non-empty and distinct from the (empty) error message of a clean run, so a
timeout is distinguishable from normal program output. -/
theorem c3_timeout_kill_drain (T : Nat) (pOut pErr : String) (hT : T ≠ 0) :
    execute (some T) (ProcRun.runsPast pOut pErr) =
      some { stdout := pOut, stderr := pErr
             errmsg := "Execution terminated after " ++ toString T ++ " seconds"
             killed := true, runningAfter := false } ∧
    (∀ out err : String, execute (some T) (ProcRun.completes out err 0) =
      some { stdout := out, stderr := err, errmsg := ""
             killed := false, runningAfter := false }) ∧
    "Execution terminated after " ++ toString T ++ " seconds" ≠ "" := by
  have hact : timeLimitActive (some T) = true := by
    simp [timeLimitActive, hT]
  refine ⟨?_, fun out err => ?_, fun hcontra => ?_⟩
  · simp [execute, hact]
  · simp [execute, hact]
  · have h1 : ("Execution terminated after " ++ toString T ++ " seconds").data.head?
        = some 'E' := rfl
    rw [hcontra] at h1
    cases h1

/-- Witness for C3 at `T = 5` with concrete partial output. -/
theorem c3_witness :
    execute (some 5) (ProcRun.runsPast "par" "tial") =
      some { stdout := "par", stderr := "tial"
             errmsg := "Execution terminated after 5 seconds"
             killed := true, runningAfter := false } ∧
    execute (some 5) (ProcRun.completes "ok" "" 0) =
      some { stdout := "ok", stderr := "", errmsg := ""
             killed := false, runningAfter := false } ∧
    "Execution terminated after 5 seconds" ≠ "" := by
  have h := c3_timeout_kill_drain 5 "par" "tial" (by decide)
  refine ⟨?_, h.2.1 "ok" "", ?_⟩
  · simpa using h.1
  · exact h.2.2

/-- C4: `__post_init__` leaves its own directory in existence, so whenever
a second instance stages concurrently — the `mkdtemp` inside its
`TemporaryDirectory()` picks a name that is not the name of any existing
path, and `__post_init__` has no suspension point, so instances stage one
after the other — the two staged directory names are distinct, both staged
trees coexist, and `__del__` removes the owning instance's directory and
everything under it.  The freshness of `n2` and the fact that distinct temp
directories are siblings (neither name extends the other) are the
hypotheses; distinctness of the names is derived. -/
theorem c4_distinct_dirs_and_cleanup (fs : List String) (n1 n2 : String)
    (h2 : n2 ∉ post_init fs n1)
    (hsib : pyStartswith n1 (n2 ++ "/") = false) :
    n1 ≠ n2 ∧
    n1 ∈ post_init (post_init fs n1) n2 ∧
    n2 ∈ post_init (post_init fs n1) n2 ∧
    ∀ p ∈ sandboxDel (post_init (post_init fs n1) n2) n1,
      p ≠ n1 ∧ pyStartswith p (n1 ++ "/") = false := by
  have hn1mem : n1 ∈ post_init fs n1 := by
    simp [post_init]
  have hne : n1 ≠ n2 := fun h => h2 (h ▸ hn1mem)
  have hmem1 : n1 ∈ post_init (post_init fs n1) n2 := by
    simp only [post_init, List.mem_cons]
    right; right; right
    rw [rmtree, List.mem_filter]
    refine ⟨by simp [post_init], ?_⟩
    simp [hsib, hne]
  have hmem2 : n2 ∈ post_init (post_init fs n1) n2 := by
    simp [post_init]
  refine ⟨hne, hmem1, hmem2, fun p hp => ?_⟩
  rw [sandboxDel, if_pos hmem1, rmtree, List.mem_filter] at hp
  have := hp.2
  simp only [Bool.not_eq_eq_eq_not, Bool.not_true, Bool.or_eq_false_iff,
    beq_eq_false_iff_ne, ne_eq] at this
  exact this

/-- Witness for C4 with two concrete staged instances. -/
theorem c4_witness :
    "/tmp/tmpa1" ≠ "/tmp/tmpb2" ∧
    "/tmp/tmpa1" ∈ post_init (post_init [] "/tmp/tmpa1") "/tmp/tmpb2" ∧
    "/tmp/tmpb2" ∈ post_init (post_init [] "/tmp/tmpa1") "/tmp/tmpb2" ∧
    "/tmp/tmpa1" ∉ sandboxDel (post_init (post_init [] "/tmp/tmpa1") "/tmp/tmpb2") "/tmp/tmpa1" := by
  have h := c4_distinct_dirs_and_cleanup [] "/tmp/tmpa1" "/tmp/tmpb2"
    (by decide) (by decide)
  exact ⟨h.1, h.2.1, h.2.2.1, fun hc => (h.2.2.2 _ hc).1 rfl⟩

/-- C5 counterexample: the claim says a timed-out `run_command` returns the
output buffered before expiry as `stdout`; on a stream that had already
delivered `"partial line\n"` to the cancelled read, the code instead
returns the `CommandResult` default `stdout = ""`, discarding the buffered
output. -/
theorem c5_counterexample :
    (run_command "cat log" ["partial line\n"]
        (WaitOutcome.expires "partial line\n") WaitOutcome.completes).1 =
      { stdout := "", stderr := "Command timed out", exit_code := 1 } ∧
    (run_command "cat log" ["partial line\n"]
        (WaitOutcome.expires "partial line\n") WaitOutcome.completes).1.stdout
      ≠ "partial line\n" := by
  exact ⟨rfl, by decide⟩

/-- C5 (amended): whenever the read-until-prompt wait expires,
`ShellConnection.run_command` returns `stderr = "Command timed out"`,
`exit_code = 1`, and `stdout = ""` — the partial output buffered by the
cancelled read is discarded, never returned. -/
theorem c5_timeout_result (command : String) (stream : List String)
    (buffered : String) (echoWait : WaitOutcome) :
    (run_command command stream (WaitOutcome.expires buffered) echoWait).1 =
      { stdout := "", stderr := "Command timed out", exit_code := 1 } := rfl

/-- Drained-stream helper: on a stream of non-empty non-prompt lines that
ends (EOF) before any prompt line, `_read_until_prompt` returns the
concatenation of every line. -/
theorem read_until_prompt_eof (stream : List String)
    (h : ∀ l ∈ stream, l ≠ "" ∧ pyStartswith l PROMPT_MARKER = false) :
    read_until_prompt stream = (pyJoin stream, []) := by
  induction stream with
  | nil => rfl
  | cons l ls ih =>
    have h1 := h l (by simp)
    have ih2 := ih fun x hx => h x (by simp [hx])
    simp [read_until_prompt, h1.1, h1.2, ih2, pyJoin]

/-- A non-negative decimal numeral in the sense of the specification: at
least one character, each of them a decimal digit — of any script `int()`
accepts, i.e. carrying a Unicode decimal value. -/
def isNonNegDecimal (s : String) : Bool :=
  !s.data.isEmpty && s.data.all fun c => (pyUnicodeDecimal c).isSome

/-- The exit-code guard embedded from the code agrees with the spec's
notion of a non-negative decimal numeral. -/
theorem pyIsDigit_eq_isNonNegDecimal (s : String) :
    pyIsDigit s = isNonNegDecimal s := by
  rw [pyIsDigit, isNonNegDecimal]

/-- C7: after the primary read, `run_command` writes the synchronized
command `echo $?` (its last write), and the reported exit code is the
parsed value of the stripped response when that response is a non-negative
decimal numeral, and `1` for every other response. -/
theorem c7_exit_code_capture (command : String) (stream : List String) :
    (run_command command stream
        WaitOutcome.completes WaitOutcome.completes).2.getLast?
      = some "echo $?\n" ∧
    (run_command command stream
        WaitOutcome.completes WaitOutcome.completes).1.exit_code
      = (if isNonNegDecimal
            (pyStrip (read_until_prompt (read_until_prompt stream).2).1)
         then ((digitsToNat
            (pyStrip (read_until_prompt (read_until_prompt stream).2).1) : Int))
         else 1) := by
  rw [run_command]
  refine ⟨rfl, ?_⟩
  simp only [pyIsDigit_eq_isNonNegDecimal]

/-- Witness for C7: one concrete stream whose response is the ASCII
numeral `"7"`, one whose response is the Arabic-Indic decimal numeral
`"٣"` (reported exit code 3, as `int` parses it), and one whose response
`"err"` is no numeral (reported exit code 1). -/
theorem c7_witness :
    ((run_command "false" ["out\n", "$ ", "7\n", "$ "]
        WaitOutcome.completes WaitOutcome.completes).2.getLast?
      = some "echo $?\n" ∧
    (run_command "false" ["out\n", "$ ", "7\n", "$ "]
        WaitOutcome.completes WaitOutcome.completes).1.exit_code
      = (if isNonNegDecimal
            (pyStrip (read_until_prompt (read_until_prompt
              ["out\n", "$ ", "7\n", "$ "]).2).1)
         then ((digitsToNat
            (pyStrip (read_until_prompt (read_until_prompt
              ["out\n", "$ ", "7\n", "$ "]).2).1) : Int))
         else 1)) ∧
    (run_command "true" ["ok\n", "$ ", "٣\n", "$ "]
        WaitOutcome.completes WaitOutcome.completes).1.exit_code = 3 ∧
    (run_command "true" ["ok\n", "$ ", "err\n", "$ "]
        WaitOutcome.completes WaitOutcome.completes).1.exit_code = 1 := by
  refine ⟨c7_exit_code_capture "false" ["out\n", "$ ", "7\n", "$ "], ?_, ?_⟩
  · rw [(c7_exit_code_capture "true" ["ok\n", "$ ", "٣\n", "$ "]).2]
    decide
  · rw [(c7_exit_code_capture "true" ["ok\n", "$ ", "err\n", "$ "]).2]
    decide

/-- C10: when the stream reaches end-of-file before any prompt-marker line,
`_read_until_prompt` returns the concatenation of all lines read (no error,
no unbounded blocking — `readline` keeps returning `b""` at EOF), and
`run_command`'s primary read consequently reports that concatenation as the
command's stdout, exactly as for a prompt-terminated read. -/
theorem c10_eof_completes_read (command : String) (stream : List String)
    (h : ∀ l ∈ stream, l ≠ "" ∧ pyStartswith l PROMPT_MARKER = false) :
    read_until_prompt stream = (pyJoin stream, []) ∧
    (run_command command stream
        WaitOutcome.completes WaitOutcome.completes).1.stdout
      = pyJoin stream := by
  have h1 := read_until_prompt_eof stream h
  refine ⟨h1, ?_⟩
  rw [run_command]
  simp [h1]

/-- Witness for C10 on a concrete stream closed before any prompt. -/
theorem c10_witness :
    read_until_prompt ["alpha\n", "beta\n"] = (pyJoin ["alpha\n", "beta\n"], []) ∧
    (run_command "pwd" ["alpha\n", "beta\n"]
        WaitOutcome.completes WaitOutcome.completes).1.stdout
      = pyJoin ["alpha\n", "beta\n"] :=
  c10_eof_completes_read "pwd" ["alpha\n", "beta\n"] (by decide)

/-- C8 counterexample: in the Unix-socket variant (`shell.py`), a
`connect()` with the sandbox location configuration absent fails with a raw
`KeyError` from `os.environ["SANDBOX_SOCKET"]` — a low-level exception that
propagates to the dispatch layer, not the structured tool-layer error the
claim requires of every variant. -/
theorem c8_counterexample :
    connect_unix none NetAttempt.opens
      = Except.error (ConnectError.keyError "SANDBOX_SOCKET") ∧
    (ConnectError.keyError "SANDBOX_SOCKET").isStructured = false := by
  exact ⟨rfl, rfl⟩

/-- C8 (amended): in the TCP variant (`sandbox.py`), `connect` with the
`SANDBOX` configuration absent fails immediately with a structured
tool-layer error distinct from the connection-failure error, and with the
configuration present a failed connection attempt is reported as a
structured error carrying the underlying system error text; in the
Unix-socket variant (`shell.py`), a missing `SANDBOX_SOCKET` raises a raw
`KeyError` and connection failures propagate as raw `OSError`s. -/
theorem c8_connect_errors (net : NetAttempt) (cfg msg : String)
    (hostChars portChars : List Char)
    (hsplit : splitFirstColon cfg.data = some (hostChars, portChars))
    (hport : ∃ n, pyIntParse ⟨portChars⟩ = some n) :
    (connect_tcp none net =
        Except.error (ConnectError.mcpError INTERNAL_ERROR
          "SANDBOX environment variable is not set") ∧
      (ConnectError.mcpError INTERNAL_ERROR
          "SANDBOX environment variable is not set").isStructured = true ∧
      "SANDBOX environment variable is not set"
        ≠ "Failed to connect to sandbox: " ++ msg) ∧
    (connect_tcp (some cfg) (NetAttempt.fails msg) =
        Except.error (ConnectError.mcpError INTERNAL_ERROR
          ("Failed to connect to sandbox: " ++ msg)) ∧
      (ConnectError.mcpError INTERNAL_ERROR
          ("Failed to connect to sandbox: " ++ msg)).isStructured = true) ∧
    (connect_unix none net
        = Except.error (ConnectError.keyError "SANDBOX_SOCKET") ∧
      (ConnectError.keyError "SANDBOX_SOCKET").isStructured = false ∧
      (∀ m : String, connect_unix (some cfg) (NetAttempt.fails m)
        = Except.error (ConnectError.osError m))) := by
  obtain ⟨n, hn⟩ := hport
  refine ⟨⟨rfl, rfl, fun hc => ?_⟩, ⟨?_, rfl⟩, rfl, rfl, fun m => rfl⟩
  · have h1 : ("SANDBOX environment variable is not set").data.head?
        = some 'S' := rfl
    have h2 : ("Failed to connect to sandbox: " ++ msg).data.head?
        = some 'F' := rfl
    rw [hc, h2] at h1
    cases h1
  · rw [connect_tcp, hsplit]
    simp [hn]

/-- Witness for C8 with the configuration `"sandbox:2222"` and a concrete
connection failure. -/
theorem c8_witness :
    (connect_tcp none NetAttempt.opens =
        Except.error (ConnectError.mcpError INTERNAL_ERROR
          "SANDBOX environment variable is not set") ∧
      (ConnectError.mcpError INTERNAL_ERROR
          "SANDBOX environment variable is not set").isStructured = true ∧
      "SANDBOX environment variable is not set"
        ≠ "Failed to connect to sandbox: " ++ "Connection refused") ∧
    (connect_tcp (some "sandbox:2222") (NetAttempt.fails "Connection refused") =
        Except.error (ConnectError.mcpError INTERNAL_ERROR
          ("Failed to connect to sandbox: " ++ "Connection refused")) ∧
      (ConnectError.mcpError INTERNAL_ERROR
          ("Failed to connect to sandbox: " ++ "Connection refused")).isStructured
        = true) ∧
    (connect_unix none NetAttempt.opens
        = Except.error (ConnectError.keyError "SANDBOX_SOCKET") ∧
      (ConnectError.keyError "SANDBOX_SOCKET").isStructured = false ∧
      (∀ m : String, connect_unix (some "sandbox:2222") (NetAttempt.fails m)
        = Except.error (ConnectError.osError m))) :=
  c8_connect_errors NetAttempt.opens "sandbox:2222" "Connection refused"
    "sandbox".data "2222".data (by decide) ⟨2222, by decide⟩

/-- Every element of a joined section list occurs contiguously in the
joined string. -/
theorem joinSep_contains_mem (sep x : String) :
    ∀ l : List String, x ∈ l → x.data <:+: (joinSep sep l).data := by
  intro l
  induction l with
  | nil => intro h; cases h
  | cons a as ih =>
    intro hx
    cases as with
    | nil =>
      have hxa : x = a := by simpa using hx
      subst hxa
      exact List.infix_refl _
    | cons b bs =>
      rcases List.mem_cons.mp hx with h | h
      · subst h
        show x.data <:+: (joinSep sep (x :: b :: bs)).data
        refine ⟨[], (sep ++ joinSep sep (b :: bs)).data, ?_⟩
        simp [joinSep]
      · rcases ih h with ⟨s, t, hst⟩
        refine ⟨(a ++ sep).data ++ s, t, ?_⟩
        show (a ++ sep).data ++ s ++ x.data ++ t = (joinSep sep (a :: b :: bs)).data
        calc (a ++ sep).data ++ s ++ x.data ++ t
            = (a ++ sep).data ++ (s ++ x.data ++ t) := by
              simp [List.append_assoc]
          _ = (a ++ sep).data ++ (joinSep sep (b :: bs)).data := by rw [hst]
          _ = (joinSep sep (a :: b :: bs)).data := by simp [joinSep]

/-- A string that occurs contiguously in a member of a section list occurs
contiguously in the joined output. -/
theorem infix_of_mem_sections (x r : String) (l : List String)
    (hr : r ∈ l) (hx : x.data <:+: r.data) :
    x.data <:+: (joinSep "\n\n" l).data :=
  hx.trans (joinSep_contains_mem "\n\n" r l hr)

/-- A string is an infix of any concatenation that surrounds it. -/
theorem infix_surround (pre s suf : String) :
    s.data <:+: (pre ++ s ++ suf).data :=
  ⟨pre.data, suf.data, by simp⟩

/-- C9: when both captured stdout and stderr are non-empty after stripping,
both contents occur in the formatted result, for `SandboxedPython.
format_output` (where an additionally present error message also appears
and suppresses neither) and for `CommandResult.formatted_output` (labelled
`Output:` / `Error:` sections); stderr is never dropped when stdout is
present. -/
theorem c9_both_streams_formatted (stdout stderr errmsg : String) (ec : Int)
    (hout : pyStrip stdout ≠ "") (herr : pyStrip stderr ≠ "") :
    (pyStrip stdout).data <:+: (format_output stdout stderr errmsg).data ∧
    (pyStrip stderr).data <:+: (format_output stdout stderr errmsg).data ∧
    (pyStrip errmsg ≠ "" →
      (pyStrip errmsg).data <:+: (format_output stdout stderr errmsg).data) ∧
    (pyStrip stdout).data <:+:
      (CommandResult.formatted_output ⟨stdout, stderr, ec⟩).data ∧
    (pyStrip stderr).data <:+:
      (CommandResult.formatted_output ⟨stdout, stderr, ec⟩).data := by
  have hfmt : ∀ s : String,
      s.data <:+: (s ++ ":\n```\n" ++ s ++ "\n```").data := by
    intro s
    refine ⟨[], (":\n```\n" ++ s ++ "\n```").data, ?_⟩
    simp
  have hcmd1 : (pyStrip stdout).data <:+:
      (CommandResult.formatted_output ⟨stdout, stderr, ec⟩).data := by
    refine infix_of_mem_sections _
      ("Output:\n```\n" ++ pyStrip stdout ++ "\n```") _ ?_
      (infix_surround "Output:\n```\n" (pyStrip stdout) "\n```")
    simp [CommandResult.formatted_output, hout, herr]
  have hcmd2 : (pyStrip stderr).data <:+:
      (CommandResult.formatted_output ⟨stdout, stderr, ec⟩).data := by
    refine infix_of_mem_sections _
      ("Error:\n```\n" ++ pyStrip stderr ++ "\n```") _ ?_
      (infix_surround "Error:\n```\n" (pyStrip stderr) "\n```")
    simp [CommandResult.formatted_output, hout, herr]
  by_cases hss : stdout = stderr
  · subst hss
    have hmem : (pyStrip stdout ++ ":\n```\n" ++ pyStrip stdout ++ "\n```")
        ∈ ([OutSection.bytesSec stdout, OutSection.strSec errmsg].filterMap
          fun sec =>
            let s := pyStrip (sectionText sec)
            if s = "" then none
            else some (s ++ ":\n```\n" ++ s ++ "\n```")) := by
      simp [sectionText, hout]
    have hsd : (pyStrip stdout).data <:+:
        (format_output stdout stdout errmsg).data := by
      rw [format_output]
      simp only [if_pos rfl]
      exact infix_of_mem_sections _ _ _ hmem (hfmt (pyStrip stdout))
    refine ⟨hsd, hsd, fun hm => ?_, hcmd1, hcmd2⟩
    have hmem2 : (pyStrip errmsg ++ ":\n```\n" ++ pyStrip errmsg ++ "\n```")
        ∈ ([OutSection.bytesSec stdout, OutSection.strSec errmsg].filterMap
          fun sec =>
            let s := pyStrip (sectionText sec)
            if s = "" then none
            else some (s ++ ":\n```\n" ++ s ++ "\n```")) := by
      simp [sectionText, hout, hm]
    rw [format_output]
    simp only [if_pos rfl]
    exact infix_of_mem_sections _ _ _ hmem2 (hfmt (pyStrip errmsg))
  · have helems : (if stdout = stderr then [OutSection.bytesSec stdout]
        else [OutSection.bytesSec stdout, OutSection.bytesSec stderr])
          ++ [OutSection.strSec errmsg]
        = [OutSection.bytesSec stdout, OutSection.bytesSec stderr,
           OutSection.strSec errmsg] := by
      simp [hss]
    have hmem1 : (pyStrip stdout ++ ":\n```\n" ++ pyStrip stdout ++ "\n```")
        ∈ ([OutSection.bytesSec stdout, OutSection.bytesSec stderr,
            OutSection.strSec errmsg].filterMap
          fun sec =>
            let s := pyStrip (sectionText sec)
            if s = "" then none
            else some (s ++ ":\n```\n" ++ s ++ "\n```")) := by
      simp [sectionText, hout]
    have hmem2 : (pyStrip stderr ++ ":\n```\n" ++ pyStrip stderr ++ "\n```")
        ∈ ([OutSection.bytesSec stdout, OutSection.bytesSec stderr,
            OutSection.strSec errmsg].filterMap
          fun sec =>
            let s := pyStrip (sectionText sec)
            if s = "" then none
            else some (s ++ ":\n```\n" ++ s ++ "\n```")) := by
      simp [sectionText, herr]
    refine ⟨?_, ?_, fun hm => ?_, hcmd1, hcmd2⟩
    · rw [format_output]
      simp only [helems]
      exact infix_of_mem_sections _ _ _ hmem1 (hfmt (pyStrip stdout))
    · rw [format_output]
      simp only [helems]
      exact infix_of_mem_sections _ _ _ hmem2 (hfmt (pyStrip stderr))
    · have hmem3 : (pyStrip errmsg ++ ":\n```\n" ++ pyStrip errmsg ++ "\n```")
          ∈ ([OutSection.bytesSec stdout, OutSection.bytesSec stderr,
              OutSection.strSec errmsg].filterMap
            fun sec =>
              let s := pyStrip (sectionText sec)
              if s = "" then none
              else some (s ++ ":\n```\n" ++ s ++ "\n```")) := by
        simp [sectionText, hm]
      rw [format_output]
      simp only [helems]
      exact infix_of_mem_sections _ _ _ hmem3 (hfmt (pyStrip errmsg))

/-- Witness for C9 with distinct non-empty stdout, stderr, and error
message. -/
theorem c9_witness :
    (pyStrip "out\n").data <:+: (format_output "out\n" "err" "boom").data ∧
    (pyStrip "err").data <:+: (format_output "out\n" "err" "boom").data ∧
    (pyStrip "boom").data <:+: (format_output "out\n" "err" "boom").data ∧
    (pyStrip "out\n").data <:+:
      (CommandResult.formatted_output ⟨"out\n", "err", 2⟩).data ∧
    (pyStrip "err").data <:+:
      (CommandResult.formatted_output ⟨"out\n", "err", 2⟩).data := by
  have h := c9_both_streams_formatted "out\n" "err" "boom" 2
    (by decide) (by decide)
  exact ⟨h.1, h.2.1, h.2.2.1 (by decide), h.2.2.2.1, h.2.2.2.2⟩

end McpSandbox
